import Mathlib

/-!
Verification of the Solway-HandWriting worksheet generator
(`app/generate_worksheet.py`, `app/main.py`).

The layout engine works on Python floats; we embed the arithmetic over `ℚ`,
which matches the exact values used by the specification's scenarios.
External collaborators are parameters of the embedding:
`pdfmetrics.stringWidth` and `pdfmetrics.getAscentDescent` become function
arguments, the network and the regex matcher become an oracle record, and the
file system becomes an explicit association of paths to file sizes.
-/

namespace Solway

/-- `PT_PER_MM = 72.0 / 25.4` (generate_worksheet.py line 32). -/
def PT_PER_MM : ℚ := 72 / (127 / 5)

/-- `mm_to_pt` (line 35–36). -/
def mm_to_pt (mm : ℚ) : ℚ := mm * PT_PER_MM

/-- reportlab's `A4` page size in points: 210 mm × 297 mm. -/
def A4 : ℚ × ℚ := (mm_to_pt 210, mm_to_pt 297)

/-- The row count computed by `generate_pdf` (lines 219–220):
`usable_height = height - 2*margin`;
`num_rows = max(1, int((usable_height + row_gap) // (row_height + row_gap)))`.
Python float floor-division raises `ZeroDivisionError` when the divisor is
zero, modelled as `none`; otherwise `//` is mathematical floor. -/
def num_rows (height margin row_gap row_height : ℚ) : Option ℤ :=
  let usable_height := height - 2 * margin
  if row_height + row_gap = 0 then none
  else some (max 1 ⌊(usable_height + row_gap) / (row_height + row_gap)⌋)

/-- One iteration of the loop in `draw_double_pair_lines` (lines 102–106, 116):
the tuple `(y_top_outer, y_top_inner, y_bottom_inner, y_bottom_outer)`
appended to `rows_y` for row `i`. -/
def rowSpan (top_y row_height row_gap pair_spacing : ℚ) (i : ℕ) : ℚ × ℚ × ℚ × ℚ :=
  let y_top_outer := top_y - i * (row_height + row_gap)
  let y_top_inner := y_top_outer - pair_spacing
  let y_bottom_outer := y_top_outer - row_height
  let y_bottom_inner := y_bottom_outer + pair_spacing
  (y_top_outer, y_top_inner, y_bottom_inner, y_bottom_outer)

/-- `draw_double_pair_lines` (lines 83–118): returns the list `rows_y` of row
spans; the line strokes are pure canvas output carrying no further state. -/
def draw_double_pair_lines (top_y row_height : ℚ) (n : ℕ)
    (pair_spacing row_gap : ℚ) : List (ℚ × ℚ × ℚ × ℚ) :=
  (List.range n).map (rowSpan top_y row_height row_gap pair_spacing)

/-- `fit_font_size_to_zone` (lines 154–162). `ascentOf` models the ascent
component of `pdfmetrics.getAscentDescent(font_name, size)` as a function of
the size passed to it; the font itself stays fixed. -/
def fit_font_size_to_zone (ascentOf : ℚ → ℚ) (base_font_size zone_height : ℚ) : ℚ :=
  let base := if base_font_size ≤ 0 then 64 else base_font_size
  let ascent := ascentOf base
  if ascent ≤ 0 then base
  else
    let scale := zone_height / ascent
    max 56 (min 800 (base * scale))

/-- Truncation toward zero, the behaviour of Python `int()` on a float. -/
def pyInt (q : ℚ) : ℤ := q.num.tdiv q.den

/-- The whitespace characters stripped by Python `str.strip()` (ASCII part). -/
def isPySpace (c : Char) : Bool :=
  c == ' ' || c == '\t' || c == '\n' || c == '\r' || c == Char.ofNat 11 || c == Char.ofNat 12

/-- `text.strip()` (line 135): drop whitespace from both ends. -/
def pyStrip (s : String) : String :=
  ⟨((s.data.dropWhile isPySpace).reverse.dropWhile isPySpace).reverse⟩

/-- The separator built at line 139: `" " * max(1, int(spacing_em))`. -/
def spacing_of (spacing_em : ℚ) : String :=
  ⟨List.replicate (max 1 (pyInt spacing_em)).toNat ' '⟩

/-- The repeated unit built at line 140: the stripped token followed by the
separator. -/
def unit_of (text : String) (spacing_em : ℚ) : String :=
  pyStrip text ++ spacing_of spacing_em

/-- `draw_repeated_trace_text` (lines 121–151), returning the `(x, baseline)`
positions of the `drawString` calls. `stringWidth` is the external
`pdfmetrics.stringWidth` metric at the ambient font name and size. -/
def draw_repeated_trace_text (stringWidth : String → ℚ) (text : String)
    (left_x right_x baseline_y spacing_em : ℚ) : List (ℚ × ℚ) :=
  let token := pyStrip text
  if token = "" then []
  else
    let unit := unit_of text spacing_em
    let unit_width := stringWidth unit
    if unit_width ≤ 0 then []
    else
      let max_width := right_x - left_x
      let count := max 1 ⌊max_width / unit_width⌋
      (List.range count.toNat).map
        (fun k : ℕ => (left_x + (k : ℚ) * unit_width, baseline_y))

/-- `TRACE_UPPER` (line 21). -/
def TRACE_UPPER : String := "A B C D E F G H I J K L M N O P Q R S T U V W X Y Z"

/-- `TRACE_LOWER` (line 22). -/
def TRACE_LOWER : String := "a b c d e f g h i j k l m n o p q r s t u v w x y z"

/-- `TRACE_DIGITS` (line 23). -/
def TRACE_DIGITS : String := "0 1 2 3 4 5 6 7 8 9"

/-- `TRACE_WORDS_PL` (lines 24–29). -/
def TRACE_WORDS_PL : List String :=
  ["Ala ma kota.", "Lubię czytać książki.", "Mama i tata idą do domu.",
   "Zosia rysuje zielone drzewo."]

/-- Line 237: `sequence = [TRACE_UPPER, TRACE_LOWER, *TRACE_WORDS_PL,
TRACE_DIGITS] if not text else [text]`; the empty string is the only falsy
string. -/
def traceSequence (text : String) : List String :=
  if text = "" then [TRACE_UPPER, TRACE_LOWER] ++ TRACE_WORDS_PL ++ [TRACE_DIGITS]
  else [text]

/-- The text placement rule of the loop at lines 245–259: rows are enumerated,
even indices receive `sequence[idx % len(sequence)]` (drawn on the
bottom-inner baseline), odd indices receive nothing. -/
def rowContents (rows : List (ℚ × ℚ × ℚ × ℚ)) (sequence : List String) :
    List (Option String) :=
  rows.enum.map (fun p => if p.1 % 2 = 0 then sequence[p.1 % sequence.length]? else none)

/-- `resolve_page_size` (lines 165–172). `none` models Python `None`; the
condition `if width_mm and height_mm` is truthiness: both arguments present
and nonzero. -/
def resolve_page_size (page_size : ℚ × ℚ) (width_mm height_mm : Option ℚ) : ℚ × ℚ :=
  match width_mm, height_mm with
  | some w, some h => if w = 0 ∨ h = 0 then page_size else (mm_to_pt w, mm_to_pt h)
  | _, _ => page_size

/-- The pattern `if x_mm is not None and x_mm > 0: x = mm_to_pt(x_mm)` used
for margin, row height, row gap and pair spacing (lines 198–199, 206–211). -/
def resolve_pt (pt : ℚ) (mm : Option ℚ) : ℚ :=
  match mm with
  | some m => if 0 < m then mm_to_pt m else pt
  | none => pt

/-- The geometry resolved by `generate_pdf` before drawing. -/
structure Geometry where
  width : ℚ
  height : ℚ
  margin : ℚ
  row_height : ℚ
  row_gap : ℚ
  pair_spacing : ℚ
deriving DecidableEq

/-- The geometry resolution of `generate_pdf` (lines 194–214): page size, then
margin, row height, row gap and pair spacing, then the zero-or-negative
row-height default `max(60, font_size)` (lines 213–214). -/
def resolve_geometry (page_size : ℚ × ℚ) (page_width_mm page_height_mm : Option ℚ)
    (margin : ℚ) (margin_mm : Option ℚ) (row_height : ℚ) (row_height_mm : Option ℚ)
    (row_gap : ℚ) (row_gap_mm : Option ℚ) (font_size pair_spacing : ℚ)
    (pair_spacing_mm : Option ℚ) : Geometry :=
  let wh := resolve_page_size page_size page_width_mm page_height_mm
  let margin := resolve_pt margin margin_mm
  let row_height := resolve_pt row_height row_height_mm
  let row_gap := resolve_pt row_gap row_gap_mm
  let pair_spacing := resolve_pt pair_spacing pair_spacing_mm
  let row_height := if row_height ≤ 0 then max 60 font_size else row_height
  ⟨wh.1, wh.2, margin, row_height, row_gap, pair_spacing⟩

/-- Network and regex oracle: `cssBody` is the Google Fonts CSS endpoint
(lines 44–49), `none` meaning a request failure or non-success HTTP status;
`findTtfUrl` is the regex search of line 51 on the response body; `fontBytes`
is the TTF download of lines 69–71, returning the content size in bytes. -/
structure Net where
  cssBody : String → ℤ → Option String
  findTtfUrl : String → Option String
  fontBytes : String → Option ℕ

/-- The errors raised during font resolution. `fontResolutionError` is the
raise at line 53 when no TTF URL is found in the CSS (the spec calls that
error FontResolutionError); `networkError` covers request failures and
non-success statuses. -/
inductive GenError where
  | fontResolutionError
  | networkError
deriving DecidableEq

/-- `get_ttf_url_from_google_fonts` (lines 44–54): fetch the CSS for the
family and weight, then extract the first TTF URL; a missing match raises. -/
def get_ttf_url_from_google_fonts (net : Net) (font_family : String) (weight : ℤ) :
    Except GenError String :=
  match net.cssBody font_family weight with
  | none => .error .networkError
  | some css =>
    match net.findTtfUrl css with
    | none => .error .fontResolutionError
    | some url => .ok url

/-- File-system state: an association of paths to file sizes in bytes. -/
structure Fs where
  files : List (String × ℕ)
deriving DecidableEq

/-- Path lookup, modelling `path.exists()` and `path.stat().st_size`. -/
def Fs.lookup (fs : Fs) (p : String) : Option ℕ :=
  (fs.files.find? (fun e => e.1 == p)).map Prod.snd

/-- `path.write_bytes(content)`: create or overwrite the file at `p`. -/
def Fs.write (fs : Fs) (p : String) (size : ℕ) : Fs :=
  ⟨(p, size) :: fs.files.filter (fun e => !(e.1 == p))⟩

/-- `safe_name = font_family.lower().replace(" ", "-")` (line 63), as a
character-level map since the pattern is a single character. -/
def safe_name (font_family : String) : String :=
  ⟨(font_family.data.map Char.toLower).map (fun c => if c = ' ' then '-' else c)⟩

/-- The cache path `cache_dir / f"{safe_name}-{weight}.ttf"` (line 64). -/
def target_path (cache_dir font_family : String) (weight : ℤ) : String :=
  cache_dir ++ "/" ++ safe_name font_family ++ "-" ++ toString weight ++ ".ttf"

/-- The outcome of `download_ttf_to_cache`: the returned path, the resulting
file system, and the number of TTF downloads performed in the call. -/
structure DownloadResult where
  path : String
  fs : Fs
  fontDownloads : ℕ
deriving DecidableEq

/-- The cache-miss path of `download_ttf_to_cache` (lines 68–73): resolve the
TTF URL, download it, persist the bytes at the cache path. -/
def download_ttf_fetch (net : Net) (font_family : String) (weight : ℤ)
    (target : String) (fs : Fs) : Except GenError DownloadResult :=
  match get_ttf_url_from_google_fonts net font_family weight with
  | .error e => .error e
  | .ok url =>
    match net.fontBytes url with
    | none => .error .networkError
    | some len => .ok ⟨target, fs.write target len, 1⟩

/-- `download_ttf_to_cache` (lines 57–73): return the cached file when it
exists and is non-empty (lines 65–66), otherwise fetch and cache it. -/
def download_ttf_to_cache (net : Net) (font_family : String) (weight : ℤ)
    (cache_dir : String) (fs : Fs) : Except GenError DownloadResult :=
  let target := target_path cache_dir font_family weight
  match fs.lookup target with
  | some size =>
    if 0 < size then .ok ⟨target, fs, 0⟩
    else download_ttf_fetch net font_family weight target fs
  | none => download_ttf_fetch net font_family weight target fs

/-- `generate_pdf` (lines 175–267) projected onto its file-system effects: the
font is resolved and cached first (line 216); all drawing happens in memory,
and `pdf.save()` (line 267) writes the output document, whose byte size is
the abstract `pdf_size`. On a resolution error the exception propagates
before the canvas is created, so the output file is not written. The
geometric content of `generate_pdf` is modelled by `resolve_geometry`,
`num_rows`, `draw_double_pair_lines`, `rowContents` and
`draw_repeated_trace_text` above. -/
def generate_pdf_fs (net : Net) (fs : Fs) (output_path font_family : String)
    (weight : ℤ) (cache_dir : String) (pdf_size : ℕ) : Except GenError Fs :=
  match download_ttf_to_cache net font_family weight cache_dir fs with
  | .error e => .error e
  | .ok r => .ok (r.fs.write output_path pdf_size)

/-- `main` (lines 301–337): run the generation, catch any raised error and
return exit code 1 (lines 332–334), else print the path and return 0; the
result pairs the exit code with the final file system. -/
def main_run (net : Net) (fs : Fs) (output_path font_family : String)
    (weight : ℤ) (cache_dir : String) (pdf_size : ℕ) : ℕ × Fs :=
  match generate_pdf_fs net fs output_path font_family weight cache_dir pdf_size with
  | .error _ => (1, fs)
  | .ok fs2 => (0, fs2)

/-- A concrete oracle whose font listing succeeds: used to instantiate the
cache theorems. -/
def netOk : Net :=
  ⟨fun _ _ => some "css-body", fun _ => some "https-u", fun _ => some 10⟩

/-- A concrete oracle whose CSS response contains no TTF URL. -/
def netNoUrl : Net :=
  ⟨fun _ _ => some "css-body", fun _ => none, fun _ => none⟩

/-- The cache state produced by a first successful download of Solway 400. -/
def fsAfterFirst : Fs :=
  ⟨[(target_path "cache" "Solway" 400, 10)]⟩

/-- A cache hit (existing non-empty file) returns immediately with the cached
path, an unchanged file system and no network activity. -/
theorem download_cache_hit (net : Net) (family : String) (weight : ℤ)
    (cache_dir : String) (fs : Fs)
    (h : 0 < (fs.lookup (target_path cache_dir family weight)).getD 0) :
    download_ttf_to_cache net family weight cache_dir fs =
      .ok ⟨target_path cache_dir family weight, fs, 0⟩ := by
  unfold download_ttf_to_cache
  rcases hl : fs.lookup (target_path cache_dir family weight) with _ | sz
  · rw [hl] at h; simp at h
  · rw [hl] at h
    simp only [Option.getD_some] at h
    simp [hl, h]

/-- C1: for positive row height (and a well-defined division), the row count
equals `max(1, floor((usableHeight + rowGap)/(rowHeight + rowGap)))`, is at
least 1, and the concrete A4-like scenario yields exactly 9 rows. -/
theorem num_rows_spec (height margin row_gap row_height : ℚ)
    (hpos : 0 < row_height) (hne : row_height + row_gap ≠ 0) :
    num_rows height margin row_gap row_height =
      some (max 1 ⌊((height - 2 * margin) + row_gap) / (row_height + row_gap)⌋) ∧
    (∀ n : ℤ, num_rows height margin row_gap row_height = some n → 1 ≤ n) ∧
    num_rows 842 54 16 64 = some 9 := by
  refine ⟨by simp [num_rows, hne], ?_, ?_⟩
  · intro n hn
    simp only [num_rows, if_neg hne, Option.some.injEq] at hn
    exact hn ▸ le_max_left 1 _
  · norm_num [num_rows]

/-- Witness for `num_rows_spec` at the concrete A4-like scenario. -/
theorem num_rows_spec_witness :
    ((0:ℚ) < 64 ∧ (64:ℚ) + 16 ≠ 0) ∧
    (num_rows 842 54 16 64 =
        some (max 1 ⌊(((842:ℚ) - 2 * 54) + 16) / (64 + 16)⌋) ∧
      (∀ n : ℤ, num_rows 842 54 16 64 = some n → 1 ≤ n) ∧
      num_rows 842 54 16 64 = some 9) :=
  ⟨⟨by norm_num, by norm_num⟩, num_rows_spec 842 54 16 64 (by norm_num) (by norm_num)⟩

/-- C3 as stated is false: with `pairSpacing = 0` the hypothesis
`rowHeight > 2*pairSpacing` holds, yet `topOuter > topInner` fails because the
two coordinates coincide. -/
theorem double_pair_order_cex :
    (64:ℚ) > 2 * 0 ∧
    (draw_double_pair_lines 788 64 1 0 16)[0]? = some (rowSpan 788 64 16 0 0) ∧
    ¬ (rowSpan 788 64 16 0 0).1 > (rowSpan 788 64 16 0 0).2.1 := by
  refine ⟨by norm_num, by simp [draw_double_pair_lines], ?_⟩
  norm_num [rowSpan]

/-- C3 amended: the row span `i` of `draw_double_pair_lines` is
`(topOuter, topOuter - pairSpacing, (topOuter - rowHeight) + pairSpacing,
topOuter - rowHeight)` with `topOuter = topY - i*(rowHeight + rowGap)`, and
whenever `rowHeight > 2*pairSpacing` and additionally `pairSpacing > 0` the
four coordinates strictly decrease. -/
theorem double_pair_span_order (top_y row_height row_gap pair_spacing : ℚ)
    (n i : ℕ) (hi : i < n)
    (hps : 0 < pair_spacing) (hrh : 2 * pair_spacing < row_height) :
    (draw_double_pair_lines top_y row_height n pair_spacing row_gap)[i]? =
      some (top_y - i * (row_height + row_gap),
            top_y - i * (row_height + row_gap) - pair_spacing,
            (top_y - i * (row_height + row_gap) - row_height) + pair_spacing,
            top_y - i * (row_height + row_gap) - row_height) ∧
    ((rowSpan top_y row_height row_gap pair_spacing i).1 >
        (rowSpan top_y row_height row_gap pair_spacing i).2.1 ∧
      (rowSpan top_y row_height row_gap pair_spacing i).2.1 >
        (rowSpan top_y row_height row_gap pair_spacing i).2.2.1 ∧
      (rowSpan top_y row_height row_gap pair_spacing i).2.2.1 >
        (rowSpan top_y row_height row_gap pair_spacing i).2.2.2) := by
  constructor
  · simp [draw_double_pair_lines, List.getElem?_map, List.getElem?_range, hi, rowSpan]
  · refine ⟨?_, ?_, ?_⟩ <;> simp only [rowSpan] <;> linarith

/-- Witness for `double_pair_span_order` at the default geometry. -/
theorem double_pair_span_order_witness :
    ((0:ℕ) < 9 ∧ (0:ℚ) < 4 ∧ 2 * (4:ℚ) < 64) ∧
    ((draw_double_pair_lines 788 64 9 4 16)[0]? =
      some (788 - (0:ℕ) * ((64:ℚ) + 16),
            788 - (0:ℕ) * ((64:ℚ) + 16) - 4,
            (788 - (0:ℕ) * ((64:ℚ) + 16) - 64) + 4,
            788 - (0:ℕ) * ((64:ℚ) + 16) - 64) ∧
      ((rowSpan 788 64 16 4 0).1 > (rowSpan 788 64 16 4 0).2.1 ∧
        (rowSpan 788 64 16 4 0).2.1 > (rowSpan 788 64 16 4 0).2.2.1 ∧
        (rowSpan 788 64 16 4 0).2.2.1 > (rowSpan 788 64 16 4 0).2.2.2)) :=
  ⟨⟨by norm_num, by norm_num, by norm_num⟩,
    double_pair_span_order 788 64 16 4 9 0 (by norm_num) (by norm_num) (by norm_num)⟩

/-- C4 as stated is false: when the font reports a non-positive ascent,
`fit_font_size_to_zone` returns the base size unclamped (line 159), which can
lie outside `[56, 800]`. -/
theorem fit_font_size_clamp_cex :
    fit_font_size_to_zone (fun _ => 0) 5 10000 = 5 ∧
    ¬ 56 ≤ fit_font_size_to_zone (fun _ => 0) 5 10000 := by
  norm_num [fit_font_size_to_zone]

/-- C4 amended: whenever the font reports a positive ascent at the (defaulted)
base size, the result of `fit_font_size_to_zone` lies within `[56, 800]`, for
every base size and every zone height. -/
theorem fit_font_size_clamp (ascentOf : ℚ → ℚ) (base_font_size zone_height : ℚ)
    (ha : 0 < ascentOf (if base_font_size ≤ 0 then 64 else base_font_size)) :
    56 ≤ fit_font_size_to_zone ascentOf base_font_size zone_height ∧
    fit_font_size_to_zone ascentOf base_font_size zone_height ≤ 800 := by
  unfold fit_font_size_to_zone
  rw [if_neg (not_le.2 ha)]
  exact ⟨le_max_left _ _, max_le (by norm_num) (min_le_left _ _)⟩

/-- Witness for `fit_font_size_clamp` at an extreme zone height. -/
theorem fit_font_size_clamp_witness :
    (0:ℚ) < (fun _ : ℚ => (10:ℚ)) (if (64:ℚ) ≤ 0 then 64 else 64) ∧
    (56 ≤ fit_font_size_to_zone (fun _ => 10) 64 (1/1000) ∧
      fit_font_size_to_zone (fun _ => 10) 64 (1/1000) ≤ 800) :=
  ⟨by norm_num, fit_font_size_clamp (fun _ => 10) 64 (1/1000) (by norm_num)⟩

/-- C10: a non-positive base font size is replaced by the default 64 before
the ascent is read (lines 155–156), so the result never depends on it. -/
theorem fit_font_size_default_base (ascentOf : ℚ → ℚ) (base_font_size zone_height : ℚ)
    (hb : base_font_size ≤ 0) :
    fit_font_size_to_zone ascentOf base_font_size zone_height =
      fit_font_size_to_zone ascentOf 64 zone_height := by
  unfold fit_font_size_to_zone
  rw [if_pos hb, if_neg (by norm_num : ¬ (64:ℚ) ≤ 0)]

/-- Witness for `fit_font_size_default_base` at base size `-1`. -/
theorem fit_font_size_default_base_witness :
    (-1:ℚ) ≤ 0 ∧
    fit_font_size_to_zone (fun _ => 10) (-1) 100 =
      fit_font_size_to_zone (fun _ => 10) 64 100 :=
  ⟨by norm_num, fit_font_size_default_base (fun _ => 10) (-1) 100 (by norm_num)⟩

/-- C2 as stated is false: when the available width is positive but smaller
than one unit width, the `max(1, ...)` at line 146 draws one repetition,
exceeding `floor(availableWidth / unitWidth) = 0`. -/
theorem tile_count_cex :
    (draw_repeated_trace_text (fun _ => 40) "Aa Bb" 0 10 0 1).length = 1 ∧
    ⌊((10:ℚ) - 0) / 40⌋ = 0 ∧
    ¬ (((draw_repeated_trace_text (fun _ => 40) "Aa Bb" 0 10 0 1).length : ℤ) ≤
        ⌊((10:ℚ) - 0) / 40⌋) := by
  have hs : pyStrip "Aa Bb" = "Aa Bb" := by decide
  have h2 : ⌊((10:ℚ) - 0) / 40⌋ = 0 := by norm_num
  have h1 : (draw_repeated_trace_text (fun _ => 40) "Aa Bb" 0 10 0 1).length = 1 := by
    simp only [draw_repeated_trace_text, hs, h2]
    decide
  exact ⟨h1, h2, by rw [h1, h2]; norm_num⟩

/-- C2 amended: the number of drawn repetitions is
`max(1, floor(availableWidth / unitWidth))`, hence at least 1 whenever the
unit width is positive (and the token non-empty) and at most
`floor(availableWidth / unitWidth)` whenever additionally the available width
is at least one unit width; the concrete scenario with unit width 40 and
available width 487 draws 12 repetitions. -/
theorem tile_count_bounds (stringWidth : String → ℚ) (text : String)
    (left_x right_x baseline_y spacing_em : ℚ)
    (ht : pyStrip text ≠ "")
    (hw : 0 < stringWidth (unit_of text spacing_em)) :
    1 ≤ (draw_repeated_trace_text stringWidth text left_x right_x baseline_y
        spacing_em).length ∧
    (stringWidth (unit_of text spacing_em) ≤ right_x - left_x →
      ((draw_repeated_trace_text stringWidth text left_x right_x baseline_y
          spacing_em).length : ℤ) ≤
        ⌊(right_x - left_x) / stringWidth (unit_of text spacing_em)⌋) ∧
    (draw_repeated_trace_text (fun _ => 40) "Aa Bb" 0 487 0 1).length = 12 := by
  refine ⟨?_, ?_, ?_⟩
  · simp only [draw_repeated_trace_text]
    rw [if_neg ht, if_neg (not_le.2 hw), List.length_map, List.length_range]
    have h1 : (1:ℤ) ≤ max 1 ⌊(right_x - left_x) / stringWidth (unit_of text spacing_em)⌋ :=
      le_max_left _ _
    omega
  · intro hle
    simp only [draw_repeated_trace_text]
    rw [if_neg ht, if_neg (not_le.2 hw), List.length_map, List.length_range]
    have h1 : (1:ℤ) ≤ ⌊(right_x - left_x) / stringWidth (unit_of text spacing_em)⌋ :=
      Int.le_floor.2 (by exact_mod_cast (one_le_div hw).2 hle)
    omega
  · have hs : pyStrip "Aa Bb" = "Aa Bb" := by decide
    have hf : ⌊((487:ℚ) - 0) / 40⌋ = 12 := by norm_num
    simp only [draw_repeated_trace_text, hs, hf]
    decide

/-- Witness for `tile_count_bounds` at the concrete scenario of the spec. -/
theorem tile_count_bounds_witness :
    (pyStrip "Aa Bb" ≠ "" ∧ (0:ℚ) < (fun _ : String => (40:ℚ)) (unit_of "Aa Bb" 1)) ∧
    (1 ≤ (draw_repeated_trace_text (fun _ => 40) "Aa Bb" 0 487 0 1).length ∧
      ((fun _ : String => (40:ℚ)) (unit_of "Aa Bb" 1) ≤ 487 - 0 →
        ((draw_repeated_trace_text (fun _ => 40) "Aa Bb" 0 487 0 1).length : ℤ) ≤
          ⌊((487:ℚ) - 0) / (fun _ : String => (40:ℚ)) (unit_of "Aa Bb" 1)⌋) ∧
      (draw_repeated_trace_text (fun _ => 40) "Aa Bb" 0 487 0 1).length = 12) :=
  ⟨⟨by decide, by norm_num⟩,
    tile_count_bounds (fun _ => 40) "Aa Bb" 0 487 0 1 (by decide) (by norm_num)⟩

/-- C9: on an empty or whitespace-only string, or when the measured unit width
is non-positive, the tiler draws nothing and returns normally. -/
theorem tile_empty_noop (stringWidth : String → ℚ) (text : String)
    (left_x right_x baseline_y spacing_em : ℚ)
    (h : pyStrip text = "" ∨ stringWidth (unit_of text spacing_em) ≤ 0) :
    draw_repeated_trace_text stringWidth text left_x right_x baseline_y spacing_em = [] := by
  unfold draw_repeated_trace_text
  rcases h with h | h
  · simp [h]
  · simp [h]

/-- Witness for `tile_empty_noop` on a whitespace-only string. -/
theorem tile_empty_noop_witness :
    (pyStrip "   " = "" ∨ (fun _ : String => (40:ℚ)) (unit_of "   " 1) ≤ 0) ∧
    draw_repeated_trace_text (fun _ => 40) "   " 0 100 0 1 = [] :=
  ⟨Or.inl (by decide),
    tile_empty_noop (fun _ => 40) "   " 0 100 0 1 (Or.inl (by decide))⟩

/-- C7: only even-indexed rows carry text, the content of row `i` is
`sequence[i mod len(sequence)]`, and the default sequence is the fixed
rotation upper alphabet, lower alphabet, the four example sentences, digits. -/
theorem rowContents_alternation (rows : List (ℚ × ℚ × ℚ × ℚ)) (text : String)
    (i : ℕ) (hi : i < rows.length) :
    (rowContents rows (traceSequence text))[i]? =
      some (if i % 2 = 0 then (traceSequence text)[i % (traceSequence text).length]?
            else none) ∧
    (i % 2 = 0 → ∃ c, (traceSequence text)[i % (traceSequence text).length]? = some c) ∧
    traceSequence "" = [TRACE_UPPER, TRACE_LOWER, "Ala ma kota.",
      "Lubię czytać książki.", "Mama i tata idą do domu.",
      "Zosia rysuje zielone drzewo.", TRACE_DIGITS] := by
  refine ⟨?_, ?_, by simp [traceSequence, TRACE_WORDS_PL]⟩
  · simp [rowContents, List.getElem?_map, List.getElem?_enum, List.getElem?_eq_getElem hi]
  · intro _
    have hlen : 0 < (traceSequence text).length := by
      unfold traceSequence; split <;> simp [TRACE_WORDS_PL]
    exact ⟨_, List.getElem?_eq_getElem (Nat.mod_lt _ hlen)⟩

/-- Witness for `rowContents_alternation` on a three-row page with the default
content rotation. -/
theorem rowContents_alternation_witness :
    (2 < (List.replicate 3 ((0:ℚ), (0:ℚ), (0:ℚ), (0:ℚ))).length) ∧
    ((rowContents (List.replicate 3 ((0:ℚ), (0:ℚ), (0:ℚ), (0:ℚ)))
        (traceSequence ""))[2]? =
      some (if 2 % 2 = 0 then (traceSequence "")[2 % (traceSequence "").length]?
            else none) ∧
    (2 % 2 = 0 → ∃ c, (traceSequence "")[2 % (traceSequence "").length]? = some c) ∧
    traceSequence "" = [TRACE_UPPER, TRACE_LOWER, "Ala ma kota.",
      "Lubię czytać książki.", "Mama i tata idą do domu.",
      "Zosia rysuje zielone drzewo.", TRACE_DIGITS]) :=
  ⟨by simp, rowContents_alternation (List.replicate 3 ((0:ℚ), (0:ℚ), (0:ℚ), (0:ℚ)))
    "" 2 (by simp)⟩

/-- C8 as stated is false for the page dimensions: a positive page-width
millimetre value alone does not override the width, because line 170 requires
both millimetre dimensions to be truthy. -/
theorem mm_override_cex :
    (resolve_geometry A4 (some 100) none 54 none 0 none 16 none 64 4 none).width = A4.1 ∧
    mm_to_pt 100 ≠ A4.1 := by
  constructor
  · simp [resolve_geometry, resolve_page_size]
  · norm_num [mm_to_pt, PT_PER_MM, A4]

/-- C8 amended: margin, row height, row gap and pair spacing are each
independently overridden by a positive millimetre value converted at 72/25.4
points per millimetre, whatever the other millimetre arguments are; the page
width and height are overridden only jointly, when both millimetre values are
supplied and nonzero, and are left unchanged whenever either one is absent. -/
theorem mm_override_amended :
    (∀ (page_size : ℚ × ℚ) (page_width_mm page_height_mm : Option ℚ)
        (margin m row_height : ℚ) (row_height_mm : Option ℚ) (row_gap : ℚ)
        (row_gap_mm : Option ℚ) (font_size pair_spacing : ℚ)
        (pair_spacing_mm : Option ℚ), 0 < m →
      (resolve_geometry page_size page_width_mm page_height_mm margin (some m)
          row_height row_height_mm row_gap row_gap_mm font_size pair_spacing
          pair_spacing_mm).margin = mm_to_pt m) ∧
    (∀ (page_size : ℚ × ℚ) (page_width_mm page_height_mm : Option ℚ)
        (margin : ℚ) (margin_mm : Option ℚ) (row_height rh row_gap : ℚ)
        (row_gap_mm : Option ℚ) (font_size pair_spacing : ℚ)
        (pair_spacing_mm : Option ℚ), 0 < rh →
      (resolve_geometry page_size page_width_mm page_height_mm margin margin_mm
          row_height (some rh) row_gap row_gap_mm font_size pair_spacing
          pair_spacing_mm).row_height = mm_to_pt rh) ∧
    (∀ (page_size : ℚ × ℚ) (page_width_mm page_height_mm : Option ℚ)
        (margin : ℚ) (margin_mm : Option ℚ) (row_height : ℚ)
        (row_height_mm : Option ℚ) (row_gap rg font_size pair_spacing : ℚ)
        (pair_spacing_mm : Option ℚ), 0 < rg →
      (resolve_geometry page_size page_width_mm page_height_mm margin margin_mm
          row_height row_height_mm row_gap (some rg) font_size pair_spacing
          pair_spacing_mm).row_gap = mm_to_pt rg) ∧
    (∀ (page_size : ℚ × ℚ) (page_width_mm page_height_mm : Option ℚ)
        (margin : ℚ) (margin_mm : Option ℚ) (row_height : ℚ)
        (row_height_mm : Option ℚ) (row_gap : ℚ) (row_gap_mm : Option ℚ)
        (font_size pair_spacing p : ℚ), 0 < p →
      (resolve_geometry page_size page_width_mm page_height_mm margin margin_mm
          row_height row_height_mm row_gap row_gap_mm font_size pair_spacing
          (some p)).pair_spacing = mm_to_pt p) ∧
    (∀ (page_size : ℚ × ℚ) (w h margin : ℚ) (margin_mm : Option ℚ)
        (row_height : ℚ) (row_height_mm : Option ℚ) (row_gap : ℚ)
        (row_gap_mm : Option ℚ) (font_size pair_spacing : ℚ)
        (pair_spacing_mm : Option ℚ), w ≠ 0 → h ≠ 0 →
      (resolve_geometry page_size (some w) (some h) margin margin_mm row_height
          row_height_mm row_gap row_gap_mm font_size pair_spacing
          pair_spacing_mm).width = mm_to_pt w ∧
      (resolve_geometry page_size (some w) (some h) margin margin_mm row_height
          row_height_mm row_gap row_gap_mm font_size pair_spacing
          pair_spacing_mm).height = mm_to_pt h) ∧
    (∀ q : ℚ × ℚ, ∀ w : Option ℚ, resolve_page_size q w none = q) ∧
    (∀ q : ℚ × ℚ, ∀ h : Option ℚ, resolve_page_size q none h = q) := by
  refine ⟨?_, ?_, ?_, ?_, ?_, ?_, ?_⟩
  · intro ps wm hm margin m rh rhm rg rgm fs0 psp pspm hm0
    simp [resolve_geometry, resolve_pt, hm0]
  · intro ps wm hm margin mm rh0 rh rg rgm fs0 psp pspm hrh
    have hpos : (0:ℚ) < mm_to_pt rh := by
      unfold mm_to_pt PT_PER_MM; positivity
    simp [resolve_geometry, resolve_pt, hrh, not_le.2 hpos]
  · intro ps wm hm margin mm rh0 rhm rg0 rg fs0 psp pspm hrg
    simp [resolve_geometry, resolve_pt, hrg]
  · intro ps wm hm margin mm rh0 rhm rg0 rgm fs0 psp p hp
    simp [resolve_geometry, resolve_pt, hp]
  · intro ps w h margin mm rh0 rhm rg0 rgm fs0 psp pspm hw hh
    constructor <;> simp [resolve_geometry, resolve_page_size, hw, hh]
  · intro q w; cases w <;> rfl
  · intro q h; cases h <;> rfl

/-- Witness for `mm_override_amended`: each scalar override exercised with all
other millimetre arguments absent, and the joint page-dimension override. -/
theorem mm_override_amended_witness :
    ((0:ℚ) < 10 ∧ (0:ℚ) < 12 ∧ (0:ℚ) < 5 ∧ (0:ℚ) < 2 ∧ (200:ℚ) ≠ 0 ∧ (100:ℚ) ≠ 0) ∧
    (resolve_geometry A4 none none 54 (some 10) 0 none 16 none 64 4 none).margin =
      mm_to_pt 10 ∧
    (resolve_geometry A4 none none 54 none 0 (some 12) 16 none 64 4 none).row_height =
      mm_to_pt 12 ∧
    (resolve_geometry A4 none none 54 none 0 none 16 (some 5) 64 4 none).row_gap =
      mm_to_pt 5 ∧
    (resolve_geometry A4 none none 54 none 0 none 16 none 64 4 (some 2)).pair_spacing =
      mm_to_pt 2 ∧
    ((resolve_geometry A4 (some 200) (some 100) 54 none 0 none 16 none 64 4
        none).width = mm_to_pt 200 ∧
      (resolve_geometry A4 (some 200) (some 100) 54 none 0 none 16 none 64 4
        none).height = mm_to_pt 100) :=
  ⟨⟨by norm_num, by norm_num, by norm_num, by norm_num, by norm_num, by norm_num⟩,
    mm_override_amended.1 A4 none none 54 10 0 none 16 none 64 4 none (by norm_num),
    mm_override_amended.2.1 A4 none none 54 none 0 12 16 none 64 4 none (by norm_num),
    mm_override_amended.2.2.1 A4 none none 54 none 0 none 16 5 64 4 none (by norm_num),
    mm_override_amended.2.2.2.1 A4 none none 54 none 0 none 16 none 64 4 2 (by norm_num),
    mm_override_amended.2.2.2.2.1 A4 200 100 54 none 0 none 16 none 64 4 none
      (by norm_num) (by norm_num)⟩

/-- C5: a non-empty cached file is returned immediately with no network
access, and a successful resolution performs at most one TTF download; when
the resolved bytes are non-empty (in particular after any cache hit), a
second resolution of the same family and weight returns the same local path
with no further network activity. -/
theorem download_cache_idempotent :
    (∀ (net : Net) (family : String) (weight : ℤ) (cache_dir : String) (fs : Fs)
        (sz : ℕ),
      fs.lookup (target_path cache_dir family weight) = some sz → 0 < sz →
      download_ttf_to_cache net family weight cache_dir fs =
        .ok ⟨target_path cache_dir family weight, fs, 0⟩) ∧
    (∀ (net : Net) (family : String) (weight : ℤ) (cache_dir : String) (fs : Fs)
        (r : DownloadResult),
      download_ttf_to_cache net family weight cache_dir fs = .ok r →
      r.fontDownloads ≤ 1 ∧ r.path = target_path cache_dir family weight ∧
      (0 < (r.fs.lookup r.path).getD 0 →
        download_ttf_to_cache net family weight cache_dir r.fs =
          .ok ⟨r.path, r.fs, 0⟩)) := by
  constructor
  · intro net family weight cache_dir fs sz hl hsz
    exact download_cache_hit net family weight cache_dir fs (by rw [hl]; exact hsz)
  · intro net family weight cache_dir fs r hr
    have hfetch : ∀ fs0 : Fs,
        download_ttf_fetch net family weight (target_path cache_dir family weight) fs0 =
          .ok r →
        r.fontDownloads ≤ 1 ∧ r.path = target_path cache_dir family weight ∧
        ∃ len : ℕ, r.fs = fs0.write (target_path cache_dir family weight) len := by
      intro fs0 hf
      unfold download_ttf_fetch get_ttf_url_from_google_fonts at hf
      rcases hcss : net.cssBody family weight with _ | css
      · simp only [hcss] at hf
        exact Except.noConfusion hf
      · simp only [hcss] at hf
        rcases hurl : net.findTtfUrl css with _ | url
        · simp only [hurl] at hf
          exact Except.noConfusion hf
        · simp only [hurl] at hf
          rcases hb : net.fontBytes url with _ | len
          · simp only [hb] at hf
            exact Except.noConfusion hf
          · simp only [hb, Except.ok.injEq] at hf
            subst hf
            exact ⟨le_refl 1, rfl, len, rfl⟩
    simp only [download_ttf_to_cache] at hr
    rcases hl : fs.lookup (target_path cache_dir family weight) with _ | sz
    · simp only [hl] at hr
      obtain ⟨h1, h2, len, h3⟩ := hfetch fs hr
      refine ⟨h1, h2, fun hpos => ?_⟩
      rw [h2]
      exact download_cache_hit net family weight cache_dir r.fs (by rwa [h2] at hpos)
    · simp only [hl] at hr
      by_cases hsz : 0 < sz
      · rw [if_pos hsz] at hr
        simp only [Except.ok.injEq] at hr
        subst hr
        refine ⟨Nat.zero_le 1, rfl, fun hpos => ?_⟩
        exact download_cache_hit net family weight cache_dir fs (by simpa using hpos)
      · rw [if_neg hsz] at hr
        obtain ⟨h1, h2, len, h3⟩ := hfetch fs hr
        refine ⟨h1, h2, fun hpos => ?_⟩
        rw [h2]
        exact download_cache_hit net family weight cache_dir r.fs (by rwa [h2] at hpos)

/-- Witness for `download_cache_idempotent`: a first resolution from an empty
cache performs one download, and the second resolution is a pure cache hit. -/
theorem download_cache_idempotent_witness :
    (fsAfterFirst.lookup (target_path "cache" "Solway" 400) = some 10 ∧ (0:ℕ) < 10 ∧
      download_ttf_to_cache netOk "Solway" 400 "cache" ⟨[]⟩ =
        .ok ⟨target_path "cache" "Solway" 400, fsAfterFirst, 1⟩) ∧
    download_ttf_to_cache netOk "Solway" 400 "cache" fsAfterFirst =
      .ok ⟨target_path "cache" "Solway" 400, fsAfterFirst, 0⟩ ∧
    ((⟨target_path "cache" "Solway" 400, fsAfterFirst, 1⟩ : DownloadResult).fontDownloads ≤ 1 ∧
      (⟨target_path "cache" "Solway" 400, fsAfterFirst, 1⟩ : DownloadResult).path =
        target_path "cache" "Solway" 400 ∧
      (0 < ((⟨target_path "cache" "Solway" 400, fsAfterFirst, 1⟩ : DownloadResult).fs.lookup
          (⟨target_path "cache" "Solway" 400, fsAfterFirst, 1⟩ : DownloadResult).path).getD 0 →
        download_ttf_to_cache netOk "Solway" 400 "cache"
            (⟨target_path "cache" "Solway" 400, fsAfterFirst, 1⟩ : DownloadResult).fs =
          .ok ⟨(⟨target_path "cache" "Solway" 400, fsAfterFirst, 1⟩ : DownloadResult).path,
            (⟨target_path "cache" "Solway" 400, fsAfterFirst, 1⟩ : DownloadResult).fs, 0⟩)) :=
  ⟨⟨rfl, by norm_num, rfl⟩,
    download_cache_idempotent.1 netOk "Solway" 400 "cache" fsAfterFirst 10 rfl (by norm_num),
    download_cache_idempotent.2 netOk "Solway" 400 "cache" ⟨[]⟩
      ⟨target_path "cache" "Solway" 400, fsAfterFirst, 1⟩ rfl⟩

/-- C6: when the CSS response contains no extractable TTF URL and the font is
not already cached, generation fails with the font-resolution error, `main`
converts it to exit code 1, and the output file is not created. -/
theorem main_unresolvable_font (net : Net) (fs : Fs)
    (output_path family : String) (weight : ℤ) (cache_dir : String)
    (pdf_size : ℕ) (css : String)
    (hcss : net.cssBody family weight = some css)
    (hfind : net.findTtfUrl css = none)
    (hcache : fs.lookup (target_path cache_dir family weight) = none) :
    generate_pdf_fs net fs output_path family weight cache_dir pdf_size =
      .error .fontResolutionError ∧
    main_run net fs output_path family weight cache_dir pdf_size = (1, fs) ∧
    (fs.lookup output_path = none →
      ((main_run net fs output_path family weight cache_dir pdf_size).2).lookup
        output_path = none) := by
  have hgen : generate_pdf_fs net fs output_path family weight cache_dir pdf_size =
      .error .fontResolutionError := by
    unfold generate_pdf_fs download_ttf_to_cache download_ttf_fetch
      get_ttf_url_from_google_fonts
    simp [hcache, hcss, hfind]
  refine ⟨hgen, ?_, ?_⟩
  · unfold main_run
    rw [hgen]
  · intro h
    unfold main_run
    rw [hgen]
    exact h

/-- Witness for `main_unresolvable_font` with an oracle whose CSS has no TTF
URL. -/
theorem main_unresolvable_font_witness :
    (netNoUrl.cssBody "Solway" 400 = some "css-body" ∧
      netNoUrl.findTtfUrl "css-body" = none ∧
      (Fs.mk []).lookup (target_path "cache" "Solway" 400) = none) ∧
    (generate_pdf_fs netNoUrl ⟨[]⟩ "output/worksheet.pdf" "Solway" 400 "cache" 5 =
        .error .fontResolutionError ∧
      main_run netNoUrl ⟨[]⟩ "output/worksheet.pdf" "Solway" 400 "cache" 5 = (1, ⟨[]⟩) ∧
      ((Fs.mk []).lookup "output/worksheet.pdf" = none →
        ((main_run netNoUrl ⟨[]⟩ "output/worksheet.pdf" "Solway" 400 "cache" 5).2).lookup
          "output/worksheet.pdf" = none)) :=
  ⟨⟨rfl, rfl, rfl⟩,
    main_unresolvable_font netNoUrl ⟨[]⟩ "output/worksheet.pdf" "Solway" 400 "cache" 5
      "css-body" rfl rfl rfl⟩

end Solway
